import Mathlib

/-!
Shallow embedding of the hubspot-resend-poc repository.

The embedded code:
  * the four step functions `createContact`, `createDeal`,
    `associateDealToContact`, `sendConfirmationEmail` and the orchestrator
    `runDiagnosticFlow` (src/unnamed/part_000);
  * the webhook store handlers `POST` / `GET`
    (src/app/api/webhook/route.ts).

External effects (fetch responses, JSON body parsing, the Resend client)
are modelled as oracle values passed in explicitly: each network
interaction that the TypeScript code awaits is one constructor of an
outcome type, covering the resolved response, a transport-level rejection
(the `catch` paths) and a body that fails to parse as JSON.  Process
configuration (`process.env`) is an explicit `Env` record.  The
orchestrator additionally returns a trace of the step invocations it
performs, so that "no step was attempted" and "the step was invoked with
exactly these arguments" are statable; `runDiagnosticFlow` itself is the
first projection of the traced function.
-/

/-- A dynamic JSON/JS value, as produced by `response.json()`.
`undefined` stands for JavaScript `undefined` (absent property). -/
inductive Json where
  | undefined : Json
  | null : Json
  | str (s : String) : Json
  | boolean (b : Bool) : Json
  | num (n : Int) : Json
  | obj (fields : List (String × Json)) : Json
deriving Repr

/-- JavaScript truthiness of a value (`undefined`, `null`, `""`, `false`,
`0` are falsy; objects are truthy). -/
def Json.truthy : Json → Bool
  | .undefined => false
  | .null => false
  | .str s => !s.isEmpty
  | .boolean b => b
  | .num n => n != 0
  | .obj _ => true

/-- JavaScript string coercion, as performed by template-literal
interpolation. -/
def Json.asString : Json → String
  | .undefined => "undefined"
  | .null => "null"
  | .str s => s
  | .boolean b => if b then "true" else "false"
  | .num n => toString n
  | .obj _ => "[object Object]"

/-- Property access `j.k` (resp. `j?.k`): the field's value when `j` is an
object that has field `k`, `undefined` otherwise. -/
def Json.get : Json → String → Json
  | .obj fields, k =>
    match fields.lookup k with
    | some v => v
    | none => .undefined
  | _, _ => .undefined

/-- The pattern `data.message || fallback` used for error messages in all
step functions: the `message` field when truthy, the fallback otherwise. -/
def Json.messageOr (j : Json) (fallback : String) : String :=
  let m := j.get "message"
  if m.truthy then m.asString else fallback

/-- Access `d?.k` on an optional data record, as in
`contactResult.data?.id`. -/
def dataGet (d : Option Json) (k : String) : Json :=
  match d with
  | none => .undefined
  | some j => j.get k

/-- JavaScript truthiness of `process.env.X` (a `string | undefined`):
absent and the empty string are falsy. -/
def envTruthy : Option String → Bool
  | none => false
  | some s => !s.isEmpty

/-- Process configuration: `HUBSPOT_ACCESS_TOKEN` and `RESEND_API_KEY`. -/
structure Env where
  hubspotAccessToken : Option String
  resendApiKey : Option String

/-- A JavaScript exception: `some m` is an `Error` whose `.message` is `m`
(the `error instanceof Error` branch of the catch blocks), `none` is any
thrown non-`Error` value. -/
def JsError : Type := Option String

/-- The message the catch blocks extract:
`error instanceof Error ? error.message : fallback`. -/
def JsError.caughtMessage (e : JsError) (fallback : String) : String :=
  match e with
  | some m => m
  | none => fallback

/-- Outcome of `await response.json()`: a parsed value, or a rejection. -/
inductive JsonOutcome where
  | parsed (j : Json) : JsonOutcome
  | thrown (e : JsError) : JsonOutcome

/-- Outcome of one `await fetch(...)` together with the subsequent body
read: the fetch may reject (transport failure), or resolve to a response
with an HTTP status whose body then parses or fails to parse. -/
inductive HttpOutcome where
  | thrown (e : JsError) : HttpOutcome
  | response (status : Nat) (body : JsonOutcome) : HttpOutcome

/-- Embeds `Response.ok`: the status is in the 2xx range. -/
def respOk (status : Nat) : Bool := decide (200 ≤ status ∧ status < 300)

/-- Outcome of `await resend.emails.send(...)`: a rejection, or a resolved
`{ data, error }` pair where `error` is `null` or an error object and
`data?.id` is the provider message id when present. -/
inductive ResendOutcome where
  | thrown (e : JsError) : ResendOutcome
  | returned (error : Option Json) (dataId : Option String) : ResendOutcome

/-- The contact form fields (interface `HubSpotContactData`). -/
structure HubSpotContactData where
  email : String
  firstName : String
  lastName : String
deriving Repr, DecidableEq

/-- Per-step result envelope (interface `StepResult`). -/
structure StepResult where
  step : String
  success : Bool
  message : String
  data : Option Json
deriving Repr

/-- The `summary.contact` record of the flow result. -/
structure SummaryContact where
  id : String
  email : String
  firstName : String
  lastName : String
deriving Repr

/-- The `summary.deal` record of the flow result; also the `dealData` argument of the
email step. -/
structure SummaryDeal where
  id : String
  name : String
deriving Repr, DecidableEq

/-- The optional `summary` of `DiagnosticFlowResult`. -/
structure FlowSummary where
  contact : SummaryContact
  deal : SummaryDeal
  association : String
  emailSent : Bool
  emailId : Option String
deriving Repr

/-- The aggregate result of the flow (interface `DiagnosticFlowResult`). -/
structure DiagnosticFlowResult where
  success : Bool
  message : String
  steps : List StepResult
  summary : Option FlowSummary
deriving Repr

/-- Step 1, `createContact` (part_000 lines 32-85): POST the contact, read
the JSON body, map non-ok statuses to a failure result, catch any
rejection. -/
def createContact (formData : HubSpotContactData) (o : HttpOutcome) :
    StepResult :=
  match o with
  | .thrown e =>
    { step := "Create Contact", success := false,
      message := e.caughtMessage "Failed to create contact", data := none }
  | .response status body =>
    match body with
    | .thrown e =>
      { step := "Create Contact", success := false,
        message := e.caughtMessage "Failed to create contact", data := none }
    | .parsed data =>
      if !respOk status then
        { step := "Create Contact", success := false,
          message := data.messageOr
            ("HubSpot API error: " ++ toString status),
          data := some data }
      else
        { step := "Create Contact", success := true,
          message := "Contact created (ID: " ++
            (data.get "id").asString ++ ")",
          data := some (Json.obj
            [("id", data.get "id"),
             ("email", (data.get "properties").get "email"),
             ("firstName", (data.get "properties").get "firstname"),
             ("lastName", (data.get "properties").get "lastname")]) }

/-- Step 2, `createDeal` (part_000 lines 88-144): derives the deal name,
POSTs the deal, same success/failure mapping as step 1. -/
def createDeal (firstName lastName : String) (o : HttpOutcome) :
    StepResult :=
  let dealName := "Diagnostic - " ++ firstName ++ " " ++ lastName
  match o with
  | .thrown e =>
    { step := "Create Deal", success := false,
      message := e.caughtMessage "Failed to create deal", data := none }
  | .response status body =>
    match body with
    | .thrown e =>
      { step := "Create Deal", success := false,
        message := e.caughtMessage "Failed to create deal", data := none }
    | .parsed data =>
      if !respOk status then
        { step := "Create Deal", success := false,
          message := data.messageOr
            ("HubSpot API error: " ++ toString status),
          data := some data }
      else
        { step := "Create Deal", success := true,
          message := "Deal created (ID: " ++ (data.get "id").asString ++
            ", Name: \"" ++ dealName ++ "\")",
          data := some (Json.obj
            [("id", data.get "id"),
             ("name", Json.str dealName),
             ("pipeline", (data.get "properties").get "pipeline"),
             ("dealstage", (data.get "properties").get "dealstage")]) }

/-- Step 3, `associateDealToContact` (part_000 lines 147-187): PUT the
association.  On non-ok status the error body is read with
`.catch(() => ({}))`, so a body that fails to parse becomes the empty
object; on ok status the body is never read. -/
def associateDealToContact (dealId contactId : String) (o : HttpOutcome) :
    StepResult :=
  match o with
  | .thrown e =>
    { step := "Associate Deal to Contact", success := false,
      message := e.caughtMessage "Failed to associate deal to contact",
      data := none }
  | .response status body =>
    if !respOk status then
      let data :=
        match body with
        | .parsed j => j
        | .thrown _ => Json.obj []
      { step := "Associate Deal to Contact", success := false,
        message := data.messageOr
          ("HubSpot API error: " ++ toString status),
        data := some data }
    else
      { step := "Associate Deal to Contact", success := true,
        message := "Deal " ++ dealId ++ " associated to Contact " ++
          contactId,
        data := some (Json.obj
          [("dealId", Json.str dealId),
           ("contactId", Json.str contactId)]) }

/-- Step 4, `sendConfirmationEmail` (part_000 lines 190-292): bails out
before any network call when `RESEND_API_KEY` is not configured, otherwise
submits the email and maps `{ data, error }`; any rejection is caught. -/
def sendConfirmationEmail (env : Env) (toEmail : String)
    (contactData : HubSpotContactData) (dealData : SummaryDeal)
    (o : ResendOutcome) : StepResult :=
  if !envTruthy env.resendApiKey then
    { step := "Send Confirmation Email", success := false,
      message := "Resend API key is not configured", data := none }
  else
    match o with
    | .thrown e =>
      { step := "Send Confirmation Email", success := false,
        message := e.caughtMessage "Failed to send email", data := none }
    | .returned (some err) _ =>
      { step := "Send Confirmation Email", success := false,
        message := err.messageOr "Failed to send email",
        data := some err }
    | .returned none dataId =>
      { step := "Send Confirmation Email", success := true,
        message := "Confirmation email sent to " ++ toEmail,
        data := some (Json.obj
          [("id", match dataId with
                  | some i => Json.str i
                  | none => Json.undefined),
           ("sentTo", Json.str toEmail)]) }

/-- One recorded invocation of a step function by the orchestrator, with
the arguments it was invoked with. -/
inductive FlowCall where
  | createContact (formData : HubSpotContactData) : FlowCall
  | createDeal (firstName lastName : String) : FlowCall
  | associateDealToContact (dealId contactId : String) : FlowCall
  | sendConfirmationEmail (toEmail : String)
      (contactData : HubSpotContactData) (dealData : SummaryDeal) : FlowCall
deriving Repr, DecidableEq

/-- The outcomes of the (up to) four external interactions of one flow
run, in step order. -/
structure FlowWorld where
  contactHttp : HttpOutcome
  dealHttp : HttpOutcome
  assocHttp : HttpOutcome
  resend : ResendOutcome

/-- The orchestrator `runDiagnosticFlow` (part_000 lines 295-389), instrumented with the
list of step invocations it performs.  Control flow follows the source:
bail out when the access token is missing; run steps 1-3, returning early
at the first failure; always attempt the email step once step 3 succeeded;
aggregate `success` as the conjunction over the step list and attach the
summary. -/
def runDiagnosticFlowT (env : Env) (formData : HubSpotContactData)
    (notificationEmail : String) (w : FlowWorld) :
    DiagnosticFlowResult × List FlowCall :=
  if !envTruthy env.hubspotAccessToken then
    ({ success := false,
       message := "HubSpot access token is not configured",
       steps := [], summary := none }, [])
  else
    let contactResult := createContact formData w.contactHttp
    if !contactResult.success then
      ({ success := false, message := "Flow failed at: Create Contact",
         steps := [contactResult], summary := none },
       [FlowCall.createContact formData])
    else
      let contactId := (dataGet contactResult.data "id").asString
      let contactData : HubSpotContactData :=
        { email := formData.email, firstName := formData.firstName,
          lastName := formData.lastName }
      let dealResult :=
        createDeal formData.firstName formData.lastName w.dealHttp
      if !dealResult.success then
        ({ success := false, message := "Flow failed at: Create Deal",
           steps := [contactResult, dealResult], summary := none },
         [FlowCall.createContact formData,
          FlowCall.createDeal formData.firstName formData.lastName])
      else
        let dealId := (dataGet dealResult.data "id").asString
        let dealName := (dataGet dealResult.data "name").asString
        let associationResult :=
          associateDealToContact dealId contactId w.assocHttp
        if !associationResult.success then
          ({ success := false,
             message := "Flow failed at: Associate Deal to Contact",
             steps := [contactResult, dealResult, associationResult],
             summary := none },
           [FlowCall.createContact formData,
            FlowCall.createDeal formData.firstName formData.lastName,
            FlowCall.associateDealToContact dealId contactId])
        else
          let emailResult :=
            sendConfirmationEmail env notificationEmail contactData
              { id := dealId, name := dealName } w.resend
          let steps :=
            [contactResult, dealResult, associationResult, emailResult]
          let allSuccessful := steps.all (fun s => s.success)
          ({ success := allSuccessful,
             message :=
               if allSuccessful then
                 "Full diagnostic flow completed successfully!"
               else
                 "Flow completed with some errors",
             steps := steps,
             summary := some
               { contact :=
                   { id := contactId, email := contactData.email,
                     firstName := contactData.firstName,
                     lastName := contactData.lastName },
                 deal := { id := dealId, name := dealName },
                 association :=
                   if associationResult.success then "success"
                   else "failed",
                 emailSent := emailResult.success,
                 emailId :=
                   match dataGet emailResult.data "id" with
                   | .str i => some i
                   | _ => none } },
           [FlowCall.createContact formData,
            FlowCall.createDeal formData.firstName formData.lastName,
            FlowCall.associateDealToContact dealId contactId,
            FlowCall.sendConfirmationEmail notificationEmail contactData
              { id := dealId, name := dealName }])

/-- The flow's result, forgetting the invocation trace. -/
def runDiagnosticFlow (env : Env) (formData : HubSpotContactData)
    (notificationEmail : String) (w : FlowWorld) : DiagnosticFlowResult :=
  (runDiagnosticFlowT env formData notificationEmail w).1

/-- One stored webhook (interface `WebhookEntry` in route.ts). -/
structure WebhookEntry where
  id : String
  payload : Json
  receivedAt : String
deriving Repr

/-- Capacity of the in-memory webhook buffer. -/
def MAX_WEBHOOKS : Nat := 5

/-- Outcome of `await request.json()` for an inbound webhook POST. -/
inductive BodyOutcome where
  | parsed (j : Json) : BodyOutcome
  | thrown (e : JsError) : BodyOutcome

/-- One inbound POST request: the generated `crypto.randomUUID()`, the
current timestamp, and the body-parse outcome. -/
structure PostRequest where
  newId : String
  now : String
  body : BodyOutcome

/-- The JSON body of the POST handler's response, with its HTTP status. -/
structure PostResponse where
  status : Nat
  success : Bool
  message : String
  id : Option String
  receivedAt : Option String
  error : Option String
deriving Repr

/-- The JSON body of the GET handler's response. -/
structure GetResponse where
  success : Bool
  webhooks : List WebhookEntry
  count : Nat
deriving Repr

/-- Handler `POST /api/webhook` (route.ts lines 13-50): parse the body, unshift a
new entry, pop the oldest past capacity; a parse failure yields a 400 and
leaves the store unchanged. -/
def webhookPOST (store : List WebhookEntry) (req : PostRequest) :
    List WebhookEntry × PostResponse :=
  match req.body with
  | .thrown e =>
    (store,
     { status := 400, success := false,
       message := "Failed to process webhook", id := none,
       receivedAt := none,
       error := some (e.caughtMessage "Unknown error") })
  | .parsed payload =>
    let entry : WebhookEntry :=
      { id := req.newId, payload := payload, receivedAt := req.now }
    let store := entry :: store
    let store :=
      if store.length > MAX_WEBHOOKS then store.dropLast else store
    (store,
     { status := 200, success := true,
       message := "Webhook received successfully", id := some entry.id,
       receivedAt := some entry.receivedAt, error := none })

/-- Handler `GET /api/webhook` (route.ts lines 52-58). -/
def webhookGET (store : List WebhookEntry) : GetResponse :=
  { success := true, webhooks := store, count := store.length }

/-- A sequence of POSTs applied in order to a store. -/
def postMany (store : List WebhookEntry) : List PostRequest →
    List WebhookEntry
  | [] => store
  | r :: rs => postMany (webhookPOST store r).1 rs

/-! ## Helper lemmas -/

/-- Every result of step 1 carries the step label "Create Contact". -/
theorem createContact_step (fd : HubSpotContactData) (o : HttpOutcome) :
    (createContact fd o).step = "Create Contact" := by
  unfold createContact
  cases o with
  | thrown e => rfl
  | response status body =>
    cases body with
    | thrown e => rfl
    | parsed j => dsimp only; split <;> rfl

/-- Every result of step 2 carries the step label "Create Deal". -/
theorem createDeal_step (f l : String) (o : HttpOutcome) :
    (createDeal f l o).step = "Create Deal" := by
  unfold createDeal
  cases o with
  | thrown e => rfl
  | response status body =>
    cases body with
    | thrown e => rfl
    | parsed j => dsimp only; split <;> rfl

/-- Every result of step 3 carries the step label
"Associate Deal to Contact". -/
theorem associateDealToContact_step (d c : String) (o : HttpOutcome) :
    (associateDealToContact d c o).step = "Associate Deal to Contact" := by
  unfold associateDealToContact
  cases o with
  | thrown e => rfl
  | response status body => dsimp only; split <;> rfl

/-- Every result of step 4 carries the step label
"Send Confirmation Email". -/
theorem sendConfirmationEmail_step (env : Env) (toEmail : String)
    (cd : HubSpotContactData) (dd : SummaryDeal) (o : ResendOutcome) :
    (sendConfirmationEmail env toEmail cd dd o).step =
      "Send Confirmation Email" := by
  unfold sendConfirmationEmail
  split
  · rfl
  · cases o with
    | thrown e => rfl
    | returned error dataId => cases error <;> rfl

/-! ## Claims -/

/-- Claim C4: when the CRM credential (HUBSPOT_ACCESS_TOKEN) is absent
from configuration, `runDiagnosticFlow` returns `{success: false,
steps: []}` immediately and invokes zero step functions (empty invocation
trace, hence no HTTP call). -/
theorem C4_missing_token (env : Env) (fd : HubSpotContactData)
    (em : String) (w : FlowWorld) (h : env.hubspotAccessToken = none) :
    runDiagnosticFlowT env fd em w =
      ({ success := false,
         message := "HubSpot access token is not configured",
         steps := [], summary := none }, []) := by
  unfold runDiagnosticFlowT
  simp [h, envTruthy]

/-- Concrete instance of C4: a run with no access token configured. -/
theorem C4_missing_token_witness :
    runDiagnosticFlowT ⟨none, none⟩ ⟨"a@b.c", "Jane", "Doe"⟩ "a@b.c"
      ⟨.thrown none, .thrown none, .thrown none, .thrown none⟩ =
      ({ success := false,
         message := "HubSpot access token is not configured",
         steps := [], summary := none }, []) :=
  C4_missing_token ⟨none, none⟩ ⟨"a@b.c", "Jane", "Doe"⟩ "a@b.c"
    ⟨.thrown none, .thrown none, .thrown none, .thrown none⟩ rfl

/-- Claim C9: when the email-provider credential (RESEND_API_KEY) is
absent from configuration, the email step returns success = false with a
result that does not depend on the Resend outcome at all — no network
call is attempted. -/
theorem C9_missing_resend_key (env : Env) (toEmail : String)
    (cd : HubSpotContactData) (dd : SummaryDeal) (o : ResendOutcome)
    (h : env.resendApiKey = none) :
    sendConfirmationEmail env toEmail cd dd o =
      { step := "Send Confirmation Email", success := false,
        message := "Resend API key is not configured", data := none } := by
  unfold sendConfirmationEmail
  simp [h, envTruthy]

/-- Concrete instance of C9: no API key, the outcome oracle is a
successful send, yet the step reports the missing key. -/
theorem C9_missing_resend_key_witness :
    sendConfirmationEmail ⟨some "token", none⟩ "a@b.c"
      ⟨"a@b.c", "Jane", "Doe"⟩ ⟨"d1", "Diagnostic - Jane Doe"⟩
      (.returned none (some "email-1")) =
      { step := "Send Confirmation Email", success := false,
        message := "Resend API key is not configured", data := none } :=
  C9_missing_resend_key ⟨some "token", none⟩ "a@b.c"
    ⟨"a@b.c", "Jane", "Doe"⟩ ⟨"d1", "Diagnostic - Jane Doe"⟩
    (.returned none (some "email-1")) rfl

/-- Claim C8: on a non-2xx upstream response, the association step parses
the error body, defaults to the empty object when the body fails to parse
as JSON, and returns success = false with that (parsed or empty) object
as data. -/
theorem C8_assoc_error_body (dealId contactId : String) (status : Nat)
    (body : JsonOutcome) (h : respOk status = false) :
    (associateDealToContact dealId contactId
        (.response status body)).success = false ∧
    (associateDealToContact dealId contactId
        (.response status body)).data =
      some (match body with
            | .parsed j => j
            | .thrown _ => Json.obj []) := by
  unfold associateDealToContact
  cases body <;> simp [h]

/-- Concrete instance of C8: a 404 response whose body fails to parse
yields a failed step whose data is the empty object. -/
theorem C8_assoc_error_body_witness :
    respOk 404 = false ∧
    ((associateDealToContact "d1" "c1"
        (.response 404 (.thrown none))).success = false ∧
     (associateDealToContact "d1" "c1"
        (.response 404 (.thrown none))).data = some (Json.obj [])) :=
  ⟨by decide, C8_assoc_error_body "d1" "c1" 404 (.thrown none) (by decide)⟩

/-- The step labels of the four steps, in execution order. -/
def flowStepNames : List String :=
  ["Create Contact", "Create Deal", "Associate Deal to Contact",
   "Send Confirmation Email"]

/-- Claim C6: no step call ever propagates a fault.  Every rejection of
the underlying network call or of the body parse (and every non-success
status) is caught at the step boundary and surfaced as that step's
StepResult with success = false and the caught message; and every exit
path of the flow returns a structured DiagnosticFlowResult whose step
list is, in order, a prefix of the four canonical steps. -/
theorem C6_no_uncaught_faults :
    (∀ fd e, createContact fd (.thrown e) =
      { step := "Create Contact", success := false,
        message := e.caughtMessage "Failed to create contact",
        data := none })
    ∧ (∀ fd st e, createContact fd (.response st (.thrown e)) =
      { step := "Create Contact", success := false,
        message := e.caughtMessage "Failed to create contact",
        data := none })
    ∧ (∀ f l e, createDeal f l (.thrown e) =
      { step := "Create Deal", success := false,
        message := e.caughtMessage "Failed to create deal",
        data := none })
    ∧ (∀ f l st e, createDeal f l (.response st (.thrown e)) =
      { step := "Create Deal", success := false,
        message := e.caughtMessage "Failed to create deal",
        data := none })
    ∧ (∀ d c e, associateDealToContact d c (.thrown e) =
      { step := "Associate Deal to Contact", success := false,
        message := e.caughtMessage "Failed to associate deal to contact",
        data := none })
    ∧ (∀ d c st e, respOk st = false →
        associateDealToContact d c (.response st (.thrown e)) =
      { step := "Associate Deal to Contact", success := false,
        message := "HubSpot API error: " ++ toString st,
        data := some (Json.obj []) })
    ∧ (∀ fd st j, respOk st = false →
        (createContact fd (.response st (.parsed j))).success = false)
    ∧ (∀ f l st j, respOk st = false →
        (createDeal f l (.response st (.parsed j))).success = false)
    ∧ (∀ env toEmail cd dd e,
        sendConfirmationEmail env toEmail cd dd (.thrown e) =
      if envTruthy env.resendApiKey then
        { step := "Send Confirmation Email", success := false,
          message := e.caughtMessage "Failed to send email", data := none }
      else
        { step := "Send Confirmation Email", success := false,
          message := "Resend API key is not configured", data := none })
    ∧ (∀ env fd em w,
        (runDiagnosticFlow env fd em w).steps.map (fun s => s.step) =
          flowStepNames.take (runDiagnosticFlow env fd em w).steps.length)
    := by
  refine ⟨fun fd e => rfl, fun fd st e => rfl, fun f l e => rfl,
    fun f l st e => rfl, fun d c e => rfl, ?_, ?_, ?_, ?_, ?_⟩
  · intro d c st e h
    unfold associateDealToContact
    simp [h, Json.messageOr, Json.get, Json.truthy]
  · intro fd st j h
    unfold createContact
    simp [h]
  · intro f l st j h
    unfold createDeal
    simp [h]
  · intro env toEmail cd dd e
    cases hk : envTruthy env.resendApiKey <;>
      simp [sendConfirmationEmail, hk]
  · intro env fd em w
    unfold runDiagnosticFlow runDiagnosticFlowT
    split
    · rfl
    · dsimp only
      split
      · simp [flowStepNames, createContact_step]
      · split
        · simp [flowStepNames, createContact_step, createDeal_step]
        · split
          · simp [flowStepNames, createContact_step, createDeal_step,
              associateDealToContact_step]
          · simp [flowStepNames, createContact_step, createDeal_step,
              associateDealToContact_step, sendConfirmationEmail_step]

/-- Concrete instance of C6: a 500 response whose body fails to parse is
caught and surfaced by the association step. -/
theorem C6_no_uncaught_faults_witness :
    respOk 500 = false ∧
    associateDealToContact "d1" "c1" (.response 500 (.thrown none)) =
      { step := "Associate Deal to Contact", success := false,
        message := "HubSpot API error: 500", data := some (Json.obj []) } :=
  ⟨by decide,
   C6_no_uncaught_faults.2.2.2.2.2.1 "d1" "c1" 500 none (by decide)⟩

/-- One POST never grows the store past the maximum of the capacity and
the incoming store's size. -/
theorem webhookPOST_length_le (store : List WebhookEntry)
    (r : PostRequest) :
    (webhookPOST store r).1.length ≤ max MAX_WEBHOOKS store.length := by
  unfold webhookPOST
  cases hb : r.body with
  | thrown e => simp
  | parsed j =>
    dsimp only
    split
    · next h =>
      simp only [List.length_dropLast, List.length_cons]
      omega
    · next h =>
      simp only [List.length_cons, MAX_WEBHOOKS] at h ⊢
      omega

/-- Starting within capacity, any sequence of POSTs stays within
capacity. -/
theorem postMany_length_le (reqs : List PostRequest) :
    ∀ store : List WebhookEntry, store.length ≤ MAX_WEBHOOKS →
      (postMany store reqs).length ≤ MAX_WEBHOOKS := by
  induction reqs with
  | nil => intro store h; exact h
  | cons r rs ih =>
    intro store h
    unfold postMany
    apply ih
    calc (webhookPOST store r).1.length
        ≤ max MAX_WEBHOOKS store.length := webhookPOST_length_le store r
      _ ≤ MAX_WEBHOOKS := max_le le_rfl h

/-- Claim C7: the webhook store never exceeds 5 entries and is ordered
newest-first.  Posting six payloads into the empty store leaves exactly
the last five, newest first, the oldest evicted; a GET on the empty store
reports count 0 and an empty list; and any sequence of POSTs from the
empty store stays within capacity 5. -/
theorem C7_webhook_store :
    (∀ i1 t1 p1 i2 t2 p2 i3 t3 p3 i4 t4 p4 i5 t5 p5 i6 t6 p6,
      postMany []
        [⟨i1, t1, .parsed p1⟩, ⟨i2, t2, .parsed p2⟩,
         ⟨i3, t3, .parsed p3⟩, ⟨i4, t4, .parsed p4⟩,
         ⟨i5, t5, .parsed p5⟩, ⟨i6, t6, .parsed p6⟩] =
        [⟨i6, p6, t6⟩, ⟨i5, p5, t5⟩, ⟨i4, p4, t4⟩,
         ⟨i3, p3, t3⟩, ⟨i2, p2, t2⟩])
    ∧ webhookGET [] = { success := true, webhooks := [], count := 0 }
    ∧ (∀ reqs : List PostRequest,
        (postMany [] reqs).length ≤ MAX_WEBHOOKS) := by
  refine ⟨?_, rfl, ?_⟩
  · intro i1 t1 p1 i2 t2 p2 i3 t3 p3 i4 t4 p4 i5 t5 p5 i6 t6 p6
    rfl
  · intro reqs
    exact postMany_length_le reqs [] (by simp [MAX_WEBHOOKS])

/-- Claim C1: when all four steps return success = true, the flow result
has success = true, summary.association = "success", and
summary.emailSent = true. -/
theorem C1_all_steps_success (env : Env) (fd : HubSpotContactData)
    (em : String) (w : FlowWorld)
    (h : (runDiagnosticFlow env fd em w).steps.map (fun s => s.success) =
      [true, true, true, true]) :
    (runDiagnosticFlow env fd em w).success = true ∧
    ∃ s, (runDiagnosticFlow env fd em w).summary = some s ∧
      s.association = "success" ∧ s.emailSent = true := by
  unfold runDiagnosticFlow runDiagnosticFlowT at h ⊢
  cases ht : envTruthy env.hubspotAccessToken with
  | false => simp [ht] at h
  | true =>
    cases hc : (createContact fd w.contactHttp).success with
    | false => simp [ht, hc] at h
    | true =>
      cases hd :
          (createDeal fd.firstName fd.lastName w.dealHttp).success with
      | false => simp [ht, hc, hd] at h
      | true =>
        cases ha : (associateDealToContact
            (dataGet
              (createDeal fd.firstName fd.lastName w.dealHttp).data
              "id").asString
            (dataGet (createContact fd w.contactHttp).data "id").asString
            w.assocHttp).success with
        | false => simp [ht, hc, hd, ha] at h
        | true =>
          simp only [ht, hc, hd, ha, Bool.not_true, Bool.not_false,
            if_false, if_true, List.map, List.all] at h ⊢
          simp only [List.cons.injEq, and_true, true_and] at h
          simp [hc, hd, ha, h]

/-- Fixture: configuration with both credentials present. -/
def envOK : Env :=
  { hubspotAccessToken := some "hs-token", resendApiKey := some "rs-key" }

/-- Fixture: contact form input. -/
def fdOK : HubSpotContactData :=
  { email := "jane@example.com", firstName := "Jane", lastName := "Doe" }

/-- Fixture: successful contact-creation response. -/
def contactCreated : HttpOutcome :=
  .response 200 (.parsed (Json.obj [("id", Json.str "c1")]))

/-- Fixture: successful deal-creation response. -/
def dealCreated : HttpOutcome :=
  .response 200 (.parsed (Json.obj [("id", Json.str "d1")]))

/-- Fixture: successful association response. -/
def assocOK : HttpOutcome :=
  .response 200 (.parsed (Json.obj []))

/-- Fixture: successful email send. -/
def emailOK : ResendOutcome := .returned none (some "e1")

/-- Fixture: the email provider reports a structured error. -/
def emailFailed : ResendOutcome :=
  .returned (some (Json.obj [("message", Json.str "rate limited")])) none

/-- Fixture: a world in which all four steps succeed. -/
def wAllOK : FlowWorld :=
  ⟨contactCreated, dealCreated, assocOK, emailOK⟩

/-- Concrete instance of C1: every step succeeds. -/
theorem C1_all_steps_success_witness :
    (runDiagnosticFlow envOK fdOK "jane@example.com" wAllOK).success =
      true ∧
    ∃ s, (runDiagnosticFlow envOK fdOK "jane@example.com" wAllOK).summary =
        some s ∧ s.association = "success" ∧ s.emailSent = true :=
  C1_all_steps_success envOK fdOK "jane@example.com" wAllOK rfl

/-- Claim C2: when the first three steps succeed but the email step
fails, the flow result has success = false, its message is
"Flow completed with some errors", and the summary is still present with
emailSent = false. -/
theorem C2_email_step_fails (env : Env) (fd : HubSpotContactData)
    (em : String) (w : FlowWorld)
    (h : (runDiagnosticFlow env fd em w).steps.map (fun s => s.success) =
      [true, true, true, false]) :
    (runDiagnosticFlow env fd em w).success = false ∧
    (runDiagnosticFlow env fd em w).message =
      "Flow completed with some errors" ∧
    ∃ s, (runDiagnosticFlow env fd em w).summary = some s ∧
      s.emailSent = false := by
  unfold runDiagnosticFlow runDiagnosticFlowT at h ⊢
  cases ht : envTruthy env.hubspotAccessToken with
  | false => simp [ht] at h
  | true =>
    cases hc : (createContact fd w.contactHttp).success with
    | false => simp [ht, hc] at h
    | true =>
      cases hd :
          (createDeal fd.firstName fd.lastName w.dealHttp).success with
      | false => simp [ht, hc, hd] at h
      | true =>
        cases ha : (associateDealToContact
            (dataGet
              (createDeal fd.firstName fd.lastName w.dealHttp).data
              "id").asString
            (dataGet (createContact fd w.contactHttp).data "id").asString
            w.assocHttp).success with
        | false => simp [ht, hc, hd, ha] at h
        | true =>
          simp only [ht, hc, hd, ha, Bool.not_true, Bool.not_false,
            if_false, if_true, List.map, List.all] at h ⊢
          simp only [List.cons.injEq, and_true, true_and] at h
          simp [hc, hd, ha, h]

/-- Concrete instance of C2: steps 1-3 succeed, the provider rejects the
email. -/
theorem C2_email_step_fails_witness :
    (runDiagnosticFlow envOK fdOK "jane@example.com"
        ⟨contactCreated, dealCreated, assocOK, emailFailed⟩).success =
      false ∧
    (runDiagnosticFlow envOK fdOK "jane@example.com"
        ⟨contactCreated, dealCreated, assocOK, emailFailed⟩).message =
      "Flow completed with some errors" ∧
    ∃ s, (runDiagnosticFlow envOK fdOK "jane@example.com"
        ⟨contactCreated, dealCreated, assocOK, emailFailed⟩).summary =
        some s ∧ s.emailSent = false :=
  C2_email_step_fails envOK fdOK "jane@example.com"
    ⟨contactCreated, dealCreated, assocOK, emailFailed⟩ rfl

/-- Claim C10: whenever the flow result carries a summary, the step list
has exactly four entries, the first three succeeded, the association
summary field is "success" (the "failed" value is unreachable), and the
aggregate success equals the email step's success (the fourth entry). -/
theorem C10_summary_invariant (env : Env) (fd : HubSpotContactData)
    (em : String) (w : FlowWorld) (s : FlowSummary)
    (h : (runDiagnosticFlow env fd em w).summary = some s) :
    (runDiagnosticFlow env fd em w).steps.length = 4 ∧
    (runDiagnosticFlow env fd em w).steps.map (fun x => x.success) =
      [true, true, true, (runDiagnosticFlow env fd em w).success] ∧
    s.association = "success" := by
  unfold runDiagnosticFlow runDiagnosticFlowT at h ⊢
  cases ht : envTruthy env.hubspotAccessToken with
  | false => simp [ht] at h
  | true =>
    cases hc : (createContact fd w.contactHttp).success with
    | false => simp [ht, hc] at h
    | true =>
      cases hd :
          (createDeal fd.firstName fd.lastName w.dealHttp).success with
      | false => simp [ht, hc, hd] at h
      | true =>
        cases ha : (associateDealToContact
            (dataGet
              (createDeal fd.firstName fd.lastName w.dealHttp).data
              "id").asString
            (dataGet (createContact fd w.contactHttp).data "id").asString
            w.assocHttp).success with
        | false => simp [ht, hc, hd, ha] at h
        | true =>
          simp [ht, hc, hd, ha] at h
          subst h
          simp [ht, hc, hd, ha]

/-- Concrete instance of C10: the all-success world produces a summary,
whose invariants hold. -/
theorem C10_summary_invariant_witness :
    (runDiagnosticFlow envOK fdOK "jane@example.com" wAllOK).steps.length =
      4 ∧
    (runDiagnosticFlow envOK fdOK "jane@example.com" wAllOK).steps.map
        (fun x => x.success) =
      [true, true, true,
       (runDiagnosticFlow envOK fdOK "jane@example.com" wAllOK).success] ∧
    (FlowSummary.mk
        ⟨"c1", "jane@example.com", "Jane", "Doe"⟩ ⟨"d1", "Diagnostic - Jane Doe"⟩
        "success" true (some "e1")).association = "success" :=
  C10_summary_invariant envOK fdOK "jane@example.com" wAllOK
    (FlowSummary.mk
      ⟨"c1", "jane@example.com", "Jane", "Doe"⟩ ⟨"d1", "Diagnostic - Jane Doe"⟩
      "success" true (some "e1")) rfl

/-- Claim C3: when one of the first three steps fails, the flow returns
immediately with success = false and the message "Flow failed at:
<step name>", the step list ends at the failing step, no later step
(including email) is invoked, and the summary is absent. -/
theorem C3_early_abort (env : Env) (fd : HubSpotContactData)
    (em : String) (w : FlowWorld)
    (ht : envTruthy env.hubspotAccessToken = true) :
    ((createContact fd w.contactHttp).success = false →
      runDiagnosticFlowT env fd em w =
        ({ success := false, message := "Flow failed at: Create Contact",
           steps := [createContact fd w.contactHttp], summary := none },
         [FlowCall.createContact fd]))
    ∧ ((createContact fd w.contactHttp).success = true →
       (createDeal fd.firstName fd.lastName w.dealHttp).success = false →
      runDiagnosticFlowT env fd em w =
        ({ success := false, message := "Flow failed at: Create Deal",
           steps := [createContact fd w.contactHttp,
                     createDeal fd.firstName fd.lastName w.dealHttp],
           summary := none },
         [FlowCall.createContact fd,
          FlowCall.createDeal fd.firstName fd.lastName]))
    ∧ ((createContact fd w.contactHttp).success = true →
       (createDeal fd.firstName fd.lastName w.dealHttp).success = true →
       (∀ dealId contactId,
         (associateDealToContact dealId contactId w.assocHttp).success =
           false) →
      runDiagnosticFlowT env fd em w =
        ({ success := false,
           message := "Flow failed at: Associate Deal to Contact",
           steps := [createContact fd w.contactHttp,
                     createDeal fd.firstName fd.lastName w.dealHttp,
                     associateDealToContact
                       (dataGet
                         (createDeal fd.firstName fd.lastName
                           w.dealHttp).data "id").asString
                       (dataGet (createContact fd w.contactHttp).data
                         "id").asString
                       w.assocHttp],
           summary := none },
         [FlowCall.createContact fd,
          FlowCall.createDeal fd.firstName fd.lastName,
          FlowCall.associateDealToContact
            (dataGet (createDeal fd.firstName fd.lastName
              w.dealHttp).data "id").asString
            (dataGet (createContact fd w.contactHttp).data
              "id").asString])) := by
  refine ⟨?_, ?_, ?_⟩
  · intro hc
    unfold runDiagnosticFlowT
    simp [ht, hc]
  · intro hc hd
    unfold runDiagnosticFlowT
    simp [ht, hc, hd]
  · intro hc hd ha
    unfold runDiagnosticFlowT
    simp [ht, hc, hd, ha]

/-- Concrete instance of C3: the contact-creation call is rejected, the
flow aborts after the first step with no later invocation. -/
theorem C3_early_abort_witness :
    runDiagnosticFlowT envOK fdOK "jane@example.com"
        ⟨.thrown (some "network down"), dealCreated, assocOK, emailOK⟩ =
      ({ success := false, message := "Flow failed at: Create Contact",
         steps := [createContact fdOK (.thrown (some "network down"))],
         summary := none },
       [FlowCall.createContact fdOK]) :=
  (C3_early_abort envOK fdOK "jane@example.com"
    ⟨.thrown (some "network down"), dealCreated, assocOK, emailOK⟩
    rfl).1 rfl

/-- Claim C5: when the contact and deal steps both succeed, the
association step is invoked (as the third call) with exactly the deal id
from the Create Deal step's data and the contact id from the Create
Contact step's data. -/
theorem C5_assoc_arguments (env : Env) (fd : HubSpotContactData)
    (em : String) (w : FlowWorld)
    (ht : envTruthy env.hubspotAccessToken = true)
    (hc : (createContact fd w.contactHttp).success = true)
    (hd : (createDeal fd.firstName fd.lastName w.dealHttp).success =
      true) :
    (runDiagnosticFlowT env fd em w).2.get? 2 =
      some (FlowCall.associateDealToContact
        (dataGet (createDeal fd.firstName fd.lastName w.dealHttp).data
          "id").asString
        (dataGet (createContact fd w.contactHttp).data "id").asString) := by
  unfold runDiagnosticFlowT
  cases ha : (associateDealToContact
      (dataGet (createDeal fd.firstName fd.lastName w.dealHttp).data
        "id").asString
      (dataGet (createContact fd w.contactHttp).data "id").asString
      w.assocHttp).success with
  | false => simp [ht, hc, hd, ha]
  | true => simp [ht, hc, hd, ha]

/-- Concrete instance of C5: in the all-success world the third call is
the association of deal d1 to contact c1. -/
theorem C5_assoc_arguments_witness :
    (runDiagnosticFlowT envOK fdOK "jane@example.com" wAllOK).2.get? 2 =
      some (FlowCall.associateDealToContact "d1" "c1") :=
  C5_assoc_arguments envOK fdOK "jane@example.com" wAllOK rfl rfl rfl
